import Mathlib

/-
Verification of the engine repository's evaluation core
(src/evaluator.py and src/config.py) via a shallow embedding.

Modelling conventions:
 - Python dictionary values that reach the validation code are modelled by
   `PyVal`.  Python `bool` is a subtype of `int` (isinstance(True, int) is
   True, True == 1), so `pyIntVal` accepts both `vInt` and `vBool`.
 - A raised exception that escapes `evaluate_position` (the two `raise
   ValueError(...)` statements and an exception from `chess.Board(fen)`) is
   modelled by `Except.error`; a returned dictionary by `Except.ok`.
 - The external `chess` / `chess.engine` libraries (ChessRules and
   EngineTransport in the spec) are an abstract `Oracle`: `parse` models
   `chess.Board(fen)` (error message or an opaque board), `spawn` models
   `SimpleEngine.popen_uci` + `configure` for this call (failure, or a fresh
   handle id together with whether the swallowed warm-up analyse fails), and
   `analyse` models `engine.analyse(board, limit)`, returning the optional
   principal variation (in UCI) and the optional score already taken from the
   side to move's point of view (`info["score"].pov(side_to_move)`); a missing
   "score" key (a KeyError inside the try block) is `score = none`.
 - The module-global `_engine` slot is `EngState`.  `EvalOut` carries, besides
   the result and the final state, counters for observable side effects of the
   one call: spawn attempts (`popen_uci` reached), `engine.analyse(board,
   limit)` calls inside the try block, and hard resets.  Logging and
   `time.sleep` have no observable effect and are not modelled; the `reason`
   string of `_hard_reset_engine` is logging-only and also dropped.
-/

namespace Engine

/-- Python values relevant to request validation. `vOther` stands for any
value that is neither `None`, a bool, an int nor a string (floats, lists, ...). -/
inductive PyVal where
  | vNone
  | vBool (b : Bool)
  | vInt (n : Int)
  | vStr (s : String)
  | vOther
  deriving DecidableEq

/-- From config.py: `DEFAULT_TIME_MS = 100`. -/
def DEFAULT_TIME_MS : Int := 100

/-- Python `isinstance(x, int)` together with the integer value used in
comparisons: ints are themselves, bools count as ints with True == 1 and
False == 0, everything else is not an int. -/
def pyIntVal : PyVal → Option Int
  | PyVal.vInt n => some n
  | PyVal.vBool b => some (if b then 1 else 0)
  | _ => none

/-- Python `isinstance(x, str)`. -/
def isStrB : PyVal → Bool
  | PyVal.vStr _ => true
  | _ => false

/-- The validation condition on `time_ms`: `isinstance(time_ms, int) and
time_ms > 0` (the code raises when `not isinstance(time_ms, int) or
time_ms <= 0`). -/
def isPosIntB (v : PyVal) : Bool :=
  match pyIntVal v with
  | some t => 0 < t
  | none => false

/-- The input dictionary, restricted to the two keys `evaluate_position`
reads; `none` means the key is missing (`dict.get` then yields Python `None`
resp. the supplied default). -/
structure Input where
  fen : Option PyVal
  time_ms : Option PyVal

/-- A score from the side to move's point of view, as the code inspects it:
`is_mate()` distinguishes the constructors, `mate()` resp. `score()` read the
integer payload. -/
inductive Score where
  | cp (n : Int)
  | mate (n : Int)
  deriving DecidableEq

/-- The analysis info dictionary: optional principal variation (`info.get("pv")`,
moves already rendered in UCI) and optional score (`info["score"]`, already
`.pov(side_to_move)`; `none` models a missing "score" key, whose lookup raises
KeyError inside the try block). -/
structure Info where
  pv : Option (List String)
  score : Option Score

/-- Outcome of `SimpleEngine.popen_uci` + `configure` for one call: raise, or a
fresh handle id plus whether the (always swallowed) warm-up analyse raises. -/
inductive SpawnOutcome where
  | fail
  | ok (h : Nat) (warmupFails : Bool)

/-- Outcome of one `engine.analyse(board, limit)` call: raise, or an info
dictionary. -/
inductive AnalyseOutcome where
  | fail
  | ok (info : Info)

/-- The external chess and engine libraries, abstracted for one
`evaluate_position` call.  `parse` models `chess.Board(fen)` (ValueError
message, or an opaque board value); `analyse` takes the handle id, the board
and `time_ms`. -/
structure Oracle where
  parse : String → Except String String
  spawn : SpawnOutcome
  analyse : Nat → String → Int → AnalyseOutcome

/-- The module-global `_engine` slot: `none` is Absent, `some h` holds the
live handle `h`. -/
structure EngState where
  engine : Option Nat
  deriving DecidableEq

/-- Exceptions escaping `evaluate_position`: both validation raises and the
`chess.Board` parse failure are `ValueError`s (with their message). -/
inductive Err where
  | valueError (msg : String)
  deriving DecidableEq

/-- The nested `"eval"` dictionary of the result. -/
structure EvalObj where
  type : String
  value : Option Int
  deriving DecidableEq

/-- The fixed result shape of `evaluate_position`. -/
structure EvalResult where
  eval : EvalObj
  best_move_uci : Option String
  ok : Bool
  deriving DecidableEq

/-- Result of one `evaluate_position` call: the returned dictionary or the
escaping exception, the global `_engine` slot after the call, and counters for
the call's observable side effects (spawn attempts, analyse calls inside the
try block, hard resets). -/
structure EvalOut where
  result : Except Err EvalResult
  state : EngState
  spawns : Nat
  analyses : Nat
  resets : Nat

/-- Model of `_warmup_engine`: sleep, then one best-effort analyse whose
result is discarded and whose exceptions are swallowed — no observable
effect. -/
def _warmup_engine (_warmupFails : Bool) : Unit := ()

/-- Model of `_spawn_engine`: popen + configure (any failure propagates as
`none`), then the swallowed warm-up; returns the new handle. -/
def _spawn_engine (o : Oracle) : Option Nat :=
  match o.spawn with
  | SpawnOutcome.fail => none
  | SpawnOutcome.ok h w =>
    let _ := _warmup_engine w
    some h

/-- Model of `_hard_reset_engine`: quit the held engine if any (errors from
`quit` swallowed) and clear the slot.  The `reason` argument is logging-only
and not modelled. -/
def _hard_reset_engine (_s : EngState) : EngState :=
  { engine := none }

/-- Model of `close_engine`: `_hard_reset_engine("manual close")`. -/
def close_engine (s : EngState) : EngState :=
  _hard_reset_engine s

/-- Model of `_get_engine`: return the held handle unchanged, or spawn when
the slot is empty.  Also reports the number of spawn attempts made (0 or 1);
a failed spawn attempt propagates the exception (`none`) and stores no
handle. -/
def _get_engine (o : Oracle) (s : EngState) : Option (Nat × EngState) × Nat :=
  match s.engine with
  | some h => (some (h, s), 0)
  | none =>
    match _spawn_engine o with
    | none => (none, 1)
    | some h => (some (h, { engine := some h }), 1)

/-- The normalization `best_move_uci = pv[0].uci() if pv else None`: the first
move of the principal variation, absent when the pv is missing or empty
(Python: a missing key and an empty list are both falsy). -/
def bestMoveOfPv : Option (List String) → Option String
  | some (m :: _) => some m
  | _ => none

/-- The fixed failure result:
`{"eval": {"type": "cp", "value": None}, "best_move_uci": None, "ok": False}`. -/
def failureResult : EvalResult :=
  { eval := { type := "cp", value := none }, best_move_uci := none, ok := false }

/-- Model of `evaluate_position`: validate, parse, then inside the try block
acquire the engine, analyse, and normalize; any exception in the try block
hard-resets the engine and yields `failureResult` with `ok = False`, without
retry. -/
def evaluate_position (o : Oracle) (input_data : Input) (s : EngState) : EvalOut :=
  let fenv := input_data.fen.getD PyVal.vNone
  let timev := input_data.time_ms.getD (PyVal.vInt DEFAULT_TIME_MS)
  match fenv with
  | PyVal.vStr fen =>
    match pyIntVal timev with
    | none =>
      { result := Except.error (Err.valueError "time_ms must be a positive integer"),
        state := s, spawns := 0, analyses := 0, resets := 0 }
    | some time_ms =>
      if time_ms ≤ 0 then
        { result := Except.error (Err.valueError "time_ms must be a positive integer"),
          state := s, spawns := 0, analyses := 0, resets := 0 }
      else
        match o.parse fen with
        | Except.error msg =>
          { result := Except.error (Err.valueError msg),
            state := s, spawns := 0, analyses := 0, resets := 0 }
        | Except.ok board =>
          match _get_engine o s with
          | (none, ns) =>
            { result := Except.ok failureResult, state := _hard_reset_engine s,
              spawns := ns, analyses := 0, resets := 1 }
          | (some (h, s2), ns) =>
            match o.analyse h board time_ms with
            | AnalyseOutcome.fail =>
              { result := Except.ok failureResult, state := _hard_reset_engine s2,
                spawns := ns, analyses := 1, resets := 1 }
            | AnalyseOutcome.ok info =>
              let best_move_uci := bestMoveOfPv info.pv
              match info.score with
              | none =>
                { result := Except.ok failureResult, state := _hard_reset_engine s2,
                  spawns := ns, analyses := 1, resets := 1 }
              | some sc =>
                match sc with
                | Score.mate n =>
                  { result := Except.ok
                      { eval := { type := "mate", value := some n },
                        best_move_uci := best_move_uci, ok := true },
                    state := s2, spawns := ns, analyses := 1, resets := 0 }
                | Score.cp n =>
                  { result := Except.ok
                      { eval := { type := "cp", value := some n },
                        best_move_uci := best_move_uci, ok := true },
                    state := s2, spawns := ns, analyses := 1, resets := 0 }
  | _ =>
    { result := Except.error (Err.valueError "fen must be a string"),
      state := s, spawns := 0, analyses := 0, resets := 0 }

/-- Repeated acquisition harness: call `_get_engine` `n` times, threading the
state and summing spawn attempts. -/
def acquireN (o : Oracle) : Nat → EngState → EngState × Nat
  | 0, s => (s, 0)
  | n + 1, s =>
    match _get_engine o s with
    | (some (_, s2), k) =>
      let r := acquireN o n s2
      (r.1, k + r.2)
    | (none, k) =>
      let r := acquireN o n s
      (r.1, k + r.2)

/-! Concrete instantiations used by the witnesses. -/

/-- Test oracle whose parser rejects every string and whose engine fails to
spawn and to analyse. -/
def oracleDead : Oracle :=
  { parse := fun _ => Except.error "invalid fen",
    spawn := SpawnOutcome.fail,
    analyse := fun _ _ _ => AnalyseOutcome.fail }

/-- Test oracle whose parser accepts every string but whose engine fails to
spawn and to analyse. -/
def oracleFail : Oracle :=
  { parse := fun f => Except.ok f,
    spawn := SpawnOutcome.fail,
    analyse := fun _ _ _ => AnalyseOutcome.fail }

/-- Healthy test oracle: parsing succeeds, spawning yields handle 7 with a
clean warm-up, analysis reports a 35-centipawn score with principal move
e7e5. -/
def oracleOk : Oracle :=
  { parse := fun f => Except.ok f,
    spawn := SpawnOutcome.ok 7 false,
    analyse := fun _ _ _ =>
      AnalyseOutcome.ok { pv := some ["e7e5"], score := some (Score.cp 35) } }

/-- Test oracle whose warm-up analyse fails (swallowed) while everything else
is healthy; analysis reports mate in 1 with principal move d8h4. -/
def oracleWarm : Oracle :=
  { parse := fun f => Except.ok f,
    spawn := SpawnOutcome.ok 5 true,
    analyse := fun _ _ _ =>
      AnalyseOutcome.ok { pv := some ["d8h4"], score := some (Score.mate 1) } }

/-- A syntactically valid request. -/
def inputValid : Input :=
  { fen := some (PyVal.vStr "rnbqkbnr/pppppppp/8/8/4P3/8/PPPP1PPP/RNBQKBNR b KQkq - 0 1"),
    time_ms := some (PyVal.vInt 100) }

/-! Characterization lemmas, one per exit path of `evaluate_position`. -/

/-- Every Python value is a string or fails the `isinstance(fen, str)` check. -/
lemma isStr_cases (v : PyVal) : isStrB v = false ∨ ∃ f, v = PyVal.vStr f := by
  rcases v with _ | b | n | f | _
  · exact Or.inl rfl
  · exact Or.inl rfl
  · exact Or.inl rfl
  · exact Or.inr ⟨f, rfl⟩
  · exact Or.inl rfl

/-- A value passing the time-budget validation is an integer greater than 0. -/
lemma isPosIntB_spec (v : PyVal) (hv : isPosIntB v = true) :
    ∃ t, pyIntVal v = some t ∧ 0 < t := by
  unfold isPosIntB at hv
  rcases ht : pyIntVal v with _ | t
  · rw [ht] at hv
    cases hv
  · rw [ht] at hv
    exact ⟨t, rfl, of_decide_eq_true hv⟩

/-- Exit path 1: a non-string `fen` raises before anything else happens. -/
lemma eval_fen_not_str (o : Oracle) (i : Input) (s : EngState)
    (hfen : isStrB (i.fen.getD PyVal.vNone) = false) :
    evaluate_position o i s =
      { result := Except.error (Err.valueError "fen must be a string"),
        state := s, spawns := 0, analyses := 0, resets := 0 } := by
  rcases h : i.fen.getD PyVal.vNone with _ | b | n | f | _ <;>
    simp only [evaluate_position, h]
  rw [h] at hfen
  simp [isStrB] at hfen

/-- Exit path 2: an invalid time budget raises before anything else happens. -/
lemma eval_time_invalid (o : Oracle) (i : Input) (s : EngState) (f : String)
    (hf : i.fen.getD PyVal.vNone = PyVal.vStr f)
    (ht : isPosIntB (i.time_ms.getD (PyVal.vInt DEFAULT_TIME_MS)) = false) :
    evaluate_position o i s =
      { result := Except.error (Err.valueError "time_ms must be a positive integer"),
        state := s, spawns := 0, analyses := 0, resets := 0 } := by
  unfold isPosIntB at ht
  rcases hti : pyIntVal (i.time_ms.getD (PyVal.vInt DEFAULT_TIME_MS)) with _ | t
  · simp only [evaluate_position, hf, hti]
  · rw [hti] at ht
    simp only [decide_eq_false_iff_not, Int.not_lt] at ht
    simp only [evaluate_position, hf, hti, if_pos ht]

/-- Exit path 3: an unparsable position raises before the try block. -/
lemma eval_parse_error (o : Oracle) (i : Input) (s : EngState) (f : String) (t : Int)
    (m : String)
    (hf : i.fen.getD PyVal.vNone = PyVal.vStr f)
    (ht : pyIntVal (i.time_ms.getD (PyVal.vInt DEFAULT_TIME_MS)) = some t)
    (htpos : 0 < t)
    (hp : o.parse f = Except.error m) :
    evaluate_position o i s =
      { result := Except.error (Err.valueError m),
        state := s, spawns := 0, analyses := 0, resets := 0 } := by
  simp only [evaluate_position, hf, ht, hp]
  rw [if_neg (Int.not_le.mpr htpos)]

/-- Exit path 4: a failed spawn inside the try block hard-resets and yields
the fixed failure result. -/
lemma eval_acquire_fail (o : Oracle) (i : Input) (s : EngState) (f : String) (t : Int)
    (b : String)
    (hf : i.fen.getD PyVal.vNone = PyVal.vStr f)
    (ht : pyIntVal (i.time_ms.getD (PyVal.vInt DEFAULT_TIME_MS)) = some t)
    (htpos : 0 < t)
    (hp : o.parse f = Except.ok b)
    (hget : (_get_engine o s).1 = none) :
    evaluate_position o i s =
      { result := Except.ok failureResult, state := { engine := none },
        spawns := (_get_engine o s).2, analyses := 0, resets := 1 } := by
  rcases hg : _get_engine o s with ⟨g, ns⟩
  rw [hg] at hget
  dsimp only at hget
  subst hget
  simp only [evaluate_position, hf, ht, hp, hg]
  rw [if_neg (Int.not_le.mpr htpos)]
  rfl

/-- Exit path 5: a failed analyse inside the try block hard-resets and yields
the fixed failure result. -/
lemma eval_analyse_fail (o : Oracle) (i : Input) (s : EngState) (f : String) (t : Int)
    (b : String) (h : Nat) (s2 : EngState) (ns : Nat)
    (hf : i.fen.getD PyVal.vNone = PyVal.vStr f)
    (ht : pyIntVal (i.time_ms.getD (PyVal.vInt DEFAULT_TIME_MS)) = some t)
    (htpos : 0 < t)
    (hp : o.parse f = Except.ok b)
    (hget : _get_engine o s = (some (h, s2), ns))
    (han : o.analyse h b t = AnalyseOutcome.fail) :
    evaluate_position o i s =
      { result := Except.ok failureResult, state := { engine := none },
        spawns := ns, analyses := 1, resets := 1 } := by
  simp only [evaluate_position, hf, ht, hp, hget, han]
  rw [if_neg (Int.not_le.mpr htpos)]
  rfl

/-- Exit path 6: a successful analyse with a score yields the normalized
success result without touching the lifecycle. -/
lemma eval_success (o : Oracle) (i : Input) (s : EngState) (f : String) (t : Int)
    (b : String) (h : Nat) (s2 : EngState) (ns : Nat) (info : Info) (sc : Score)
    (hf : i.fen.getD PyVal.vNone = PyVal.vStr f)
    (ht : pyIntVal (i.time_ms.getD (PyVal.vInt DEFAULT_TIME_MS)) = some t)
    (htpos : 0 < t)
    (hp : o.parse f = Except.ok b)
    (hget : _get_engine o s = (some (h, s2), ns))
    (han : o.analyse h b t = AnalyseOutcome.ok info)
    (hsc : info.score = some sc) :
    evaluate_position o i s =
      { result := Except.ok
          { eval := match sc with
              | Score.mate n => { type := "mate", value := some n }
              | Score.cp n => { type := "cp", value := some n },
            best_move_uci := bestMoveOfPv info.pv, ok := true },
        state := s2, spawns := ns, analyses := 1, resets := 0 } := by
  simp only [evaluate_position, hf, ht, hp, hget, han, hsc]
  rw [if_neg (Int.not_le.mpr htpos)]
  rcases sc with n | n <;> rfl

/-! Claim theorems. -/

/-- Claim C1, counterexample: at the concrete input `{}` (no `fen` key, no
`time_ms` key) `evaluate_position` raises a ValueError instead of returning
the fixed result shape, so it is not true that it never raises for inputs that
fail validation. -/
theorem c1_never_raises_counterexample :
    (evaluate_position oracleDead { fen := none, time_ms := none } { engine := none }).result
      = Except.error (Err.valueError "fen must be a string") := rfl

/-- Claim C1, amended: for every input dictionary, `evaluate_position` either
returns a result of the fixed shape, or raises a ValueError from validation or
parsing, in which case the engine is untouched (no spawn attempt, no analyse
call, no reset, state unchanged).  It never raises once validation and parsing
have passed. -/
theorem c1_no_raise_after_validation (o : Oracle) (input_data : Input) (s : EngState) :
    (∃ r, (evaluate_position o input_data s).result = Except.ok r) ∨
    ((∃ m, (evaluate_position o input_data s).result = Except.error (Err.valueError m)) ∧
      (evaluate_position o input_data s).state = s ∧
      (evaluate_position o input_data s).spawns = 0 ∧
      (evaluate_position o input_data s).analyses = 0 ∧
      (evaluate_position o input_data s).resets = 0) := by
  simp only [evaluate_position]
  repeat' split
  all_goals first
    | exact Or.inl ⟨_, rfl⟩
    | exact Or.inr ⟨⟨_, rfl⟩, rfl, rfl, rfl, rfl⟩

/-- Claim C3: while a handle is held, `_get_engine` returns that same handle
with the state unchanged and no spawn attempt, and any number of repeated
acquisitions leaves the state unchanged with zero spawn attempts in total. -/
theorem c3_acquire_idempotent (o : Oracle) (s : EngState) (h : Nat)
    (hheld : s.engine = some h) :
    _get_engine o s = (some (h, s), 0) ∧ ∀ n, acquireN o n s = (s, 0) := by
  have hget : _get_engine o s = (some (h, s), 0) := by
    unfold _get_engine
    rw [hheld]
  refine ⟨hget, fun n => ?_⟩
  induction n with
  | zero => rfl
  | succ n ih =>
    unfold acquireN
    rw [hget]
    simp [ih]

/-- Witness for C3: with handle 7 held, one acquisition returns handle 7
unchanged and five repeated acquisitions cause zero spawn attempts. -/
theorem c3_acquire_idempotent_witness :
    _get_engine oracleFail { engine := some 7 } = (some (7, { engine := some 7 }), 0) ∧
    acquireN oracleFail 5 { engine := some 7 } = ({ engine := some 7 }, 0) := by
  have h := c3_acquire_idempotent oracleFail { engine := some 7 } 7 rfl
  exact ⟨h.1, h.2 5⟩

/-- Claim C9: when the `time_ms` key is missing, the call behaves exactly as
if `DEFAULT_TIME_MS` had been supplied; that default is 100 and passes the
positive-integer validation. -/
theorem c9_default_time (o : Oracle) (input_data : Input) (s : EngState)
    (hmissing : input_data.time_ms = none) :
    evaluate_position o input_data s =
      evaluate_position o { fen := input_data.fen, time_ms := some (PyVal.vInt DEFAULT_TIME_MS) } s ∧
    DEFAULT_TIME_MS = 100 ∧
    isPosIntB (PyVal.vInt DEFAULT_TIME_MS) = true := by
  obtain ⟨fen, time_ms⟩ := input_data
  cases hmissing
  exact ⟨rfl, rfl, rfl⟩

/-- Witness for C9: a concrete request without `time_ms` evaluates exactly as
the same request with `time_ms = 100`. -/
theorem c9_default_time_witness :
    evaluate_position oracleOk { fen := some (PyVal.vStr "8/8/8/8/8/8/8/8 w - - 0 1"), time_ms := none }
        { engine := none } =
      evaluate_position oracleOk
        { fen := some (PyVal.vStr "8/8/8/8/8/8/8/8 w - - 0 1"),
          time_ms := some (PyVal.vInt DEFAULT_TIME_MS) } { engine := none } ∧
    DEFAULT_TIME_MS = 100 ∧
    isPosIntB (PyVal.vInt DEFAULT_TIME_MS) = true :=
  c9_default_time oracleOk
    { fen := some (PyVal.vStr "8/8/8/8/8/8/8/8 w - - 0 1"), time_ms := none }
    { engine := none } rfl

/-- Claim C4: whenever the request's time budget (after defaulting) is not a
positive integer, `evaluate_position` raises a ValueError before touching the
engine: no spawn attempt, no analyse call, no reset, and the held-handle
state is unchanged. -/
theorem c4_time_validation (o : Oracle) (input_data : Input) (s : EngState)
    (hbad : isPosIntB (input_data.time_ms.getD (PyVal.vInt DEFAULT_TIME_MS)) = false) :
    (∃ m, (evaluate_position o input_data s).result = Except.error (Err.valueError m)) ∧
    (evaluate_position o input_data s).state = s ∧
    (evaluate_position o input_data s).spawns = 0 ∧
    (evaluate_position o input_data s).analyses = 0 ∧
    (evaluate_position o input_data s).resets = 0 := by
  rcases isStr_cases (input_data.fen.getD PyVal.vNone) with hstr | ⟨f, hf⟩
  · rw [eval_fen_not_str o input_data s hstr]
    exact ⟨⟨_, rfl⟩, rfl, rfl, rfl, rfl⟩
  · rw [eval_time_invalid o input_data s f hf hbad]
    exact ⟨⟨_, rfl⟩, rfl, rfl, rfl, rfl⟩

/-- Witness for C4: a request with `time_ms = 0` is rejected with the engine
untouched (state still Absent, zero spawn attempts, zero analyse calls, zero
resets). -/
theorem c4_time_validation_witness :
    (evaluate_position oracleFail
        { fen := some (PyVal.vStr "4k3/8/8/8/8/8/8/4K3 w - - 0 1"),
          time_ms := some (PyVal.vInt 0) } { engine := none }).state = { engine := none } ∧
    (evaluate_position oracleFail
        { fen := some (PyVal.vStr "4k3/8/8/8/8/8/8/4K3 w - - 0 1"),
          time_ms := some (PyVal.vInt 0) } { engine := none }).spawns = 0 ∧
    (evaluate_position oracleFail
        { fen := some (PyVal.vStr "4k3/8/8/8/8/8/8/4K3 w - - 0 1"),
          time_ms := some (PyVal.vInt 0) } { engine := none }).analyses = 0 ∧
    (evaluate_position oracleFail
        { fen := some (PyVal.vStr "4k3/8/8/8/8/8/8/4K3 w - - 0 1"),
          time_ms := some (PyVal.vInt 0) } { engine := none }).resets = 0 := by
  have hmain := c4_time_validation oracleFail
    { fen := some (PyVal.vStr "4k3/8/8/8/8/8/8/4K3 w - - 0 1"),
      time_ms := some (PyVal.vInt 0) } { engine := none } rfl
  exact ⟨hmain.2.1, hmain.2.2.1, hmain.2.2.2.1, hmain.2.2.2.2⟩

/-- Claim C5: a request whose position is not a string, and a request whose
position is the empty string (which the chess parser rejects), both fail in
the same way: a raised ValueError, no spawn attempt, no analyse call, no
reset, state unchanged. -/
theorem c5_position_validation (o : Oracle) (input_data : Input) (s : EngState)
    (hbad : isStrB (input_data.fen.getD PyVal.vNone) = false ∨
      (input_data.fen.getD PyVal.vNone = PyVal.vStr "" ∧
        ∃ m, o.parse "" = Except.error m)) :
    (∃ m, (evaluate_position o input_data s).result = Except.error (Err.valueError m)) ∧
    (evaluate_position o input_data s).state = s ∧
    (evaluate_position o input_data s).spawns = 0 ∧
    (evaluate_position o input_data s).analyses = 0 ∧
    (evaluate_position o input_data s).resets = 0 := by
  rcases hbad with hns | ⟨hempty, m, hp⟩
  · rw [eval_fen_not_str o input_data s hns]
    exact ⟨⟨_, rfl⟩, rfl, rfl, rfl, rfl⟩
  · rcases Bool.eq_false_or_eq_true
        (isPosIntB (input_data.time_ms.getD (PyVal.vInt DEFAULT_TIME_MS))) with hv | hv
    · obtain ⟨t, ht, htpos⟩ := isPosIntB_spec _ hv
      rw [eval_parse_error o input_data s "" t m hempty ht htpos hp]
      exact ⟨⟨_, rfl⟩, rfl, rfl, rfl, rfl⟩
    · rw [eval_time_invalid o input_data s "" hempty hv]
      exact ⟨⟨_, rfl⟩, rfl, rfl, rfl, rfl⟩

/-- Witness for C5: a request whose position is the integer 5 is rejected
with the engine untouched. -/
theorem c5_position_validation_witness :
    (evaluate_position oracleFail
        { fen := some (PyVal.vInt 5), time_ms := some (PyVal.vInt 100) }
        { engine := none }).state = { engine := none } ∧
    (evaluate_position oracleFail
        { fen := some (PyVal.vInt 5), time_ms := some (PyVal.vInt 100) }
        { engine := none }).spawns = 0 ∧
    (evaluate_position oracleFail
        { fen := some (PyVal.vInt 5), time_ms := some (PyVal.vInt 100) }
        { engine := none }).resets = 0 := by
  have hmain := c5_position_validation oracleFail
    { fen := some (PyVal.vInt 5), time_ms := some (PyVal.vInt 100) }
    { engine := none } (Or.inl rfl)
  exact ⟨hmain.2.1, hmain.2.2.1, hmain.2.2.2.2⟩

/-- Claim C6: an unparsable position string raises the parse error before any
engine interaction: no spawn attempt, no analyse call, no reset, held-handle
state exactly as before the call. -/
theorem c6_parse_error (o : Oracle) (input_data : Input) (s : EngState)
    (f : String) (t : Int) (m : String)
    (hf : input_data.fen.getD PyVal.vNone = PyVal.vStr f)
    (ht : pyIntVal (input_data.time_ms.getD (PyVal.vInt DEFAULT_TIME_MS)) = some t)
    (htpos : 0 < t)
    (hp : o.parse f = Except.error m) :
    (evaluate_position o input_data s).result = Except.error (Err.valueError m) ∧
    (evaluate_position o input_data s).state = s ∧
    (evaluate_position o input_data s).spawns = 0 ∧
    (evaluate_position o input_data s).analyses = 0 ∧
    (evaluate_position o input_data s).resets = 0 := by
  rw [eval_parse_error o input_data s f t m hf ht htpos hp]
  exact ⟨rfl, rfl, rfl, rfl, rfl⟩

/-- Witness for C6: with a handle held, an unparsable position raises the
parse error and leaves that same handle held, with no spawn and no reset. -/
theorem c6_parse_error_witness :
    (evaluate_position oracleDead
        { fen := some (PyVal.vStr "garbage"), time_ms := none }
        { engine := some 9 }).result = Except.error (Err.valueError "invalid fen") ∧
    (evaluate_position oracleDead
        { fen := some (PyVal.vStr "garbage"), time_ms := none }
        { engine := some 9 }).state = { engine := some 9 } ∧
    (evaluate_position oracleDead
        { fen := some (PyVal.vStr "garbage"), time_ms := none }
        { engine := some 9 }).spawns = 0 ∧
    (evaluate_position oracleDead
        { fen := some (PyVal.vStr "garbage"), time_ms := none }
        { engine := some 9 }).resets = 0 := by
  have hmain := c6_parse_error oracleDead
    { fen := some (PyVal.vStr "garbage"), time_ms := none } { engine := some 9 }
    "garbage" DEFAULT_TIME_MS "invalid fen" rfl rfl (by decide) rfl
  exact ⟨hmain.1, hmain.2.1, hmain.2.2.1, hmain.2.2.2.2⟩

/-- Claim C2: for a request that passes validation and parsing, any failure
while acquiring the engine handle or during analysis hard-resets the engine
(state becomes Absent), retries nothing within the call (at most one analyse
call), and returns exactly the fixed failure result with `ok = False`. -/
theorem c2_engine_failure (o : Oracle) (input_data : Input) (s : EngState)
    (f b : String) (t : Int)
    (hf : input_data.fen.getD PyVal.vNone = PyVal.vStr f)
    (ht : pyIntVal (input_data.time_ms.getD (PyVal.vInt DEFAULT_TIME_MS)) = some t)
    (htpos : 0 < t)
    (hp : o.parse f = Except.ok b)
    (hfail : (_get_engine o s).1 = none ∨
      ∃ p, (_get_engine o s).1 = some p ∧ o.analyse p.1 b t = AnalyseOutcome.fail) :
    (evaluate_position o input_data s).result = Except.ok failureResult ∧
    (evaluate_position o input_data s).state = { engine := none } ∧
    (evaluate_position o input_data s).resets = 1 ∧
    (evaluate_position o input_data s).analyses ≤ 1 := by
  rcases hfail with hnone | ⟨p, hsome, han⟩
  · rw [eval_acquire_fail o input_data s f t b hf ht htpos hp hnone]
    exact ⟨rfl, rfl, rfl, Nat.zero_le 1⟩
  · rcases hg : _get_engine o s with ⟨g, ns⟩
    rw [hg] at hsome
    dsimp only at hsome
    subst hsome
    obtain ⟨h, s2⟩ := p
    rw [eval_analyse_fail o input_data s f t b h s2 ns hf ht htpos hp hg han]
    exact ⟨rfl, rfl, rfl, Nat.le_refl 1⟩

/-- Witness for C2: with handle 3 held and an engine whose analyse fails, the
call returns the fixed failure result, the handle slot is cleared, exactly one
reset happens, and analysis is not retried. -/
theorem c2_engine_failure_witness :
    (evaluate_position oracleFail inputValid { engine := some 3 }).result
        = Except.ok failureResult ∧
    (evaluate_position oracleFail inputValid { engine := some 3 }).state
        = { engine := none } ∧
    (evaluate_position oracleFail inputValid { engine := some 3 }).resets = 1 ∧
    (evaluate_position oracleFail inputValid { engine := some 3 }).analyses ≤ 1 :=
  c2_engine_failure oracleFail inputValid { engine := some 3 }
    "rnbqkbnr/pppppppp/8/8/4P3/8/PPPP1PPP/RNBQKBNR b KQkq - 0 1"
    "rnbqkbnr/pppppppp/8/8/4P3/8/PPPP1PPP/RNBQKBNR b KQkq - 0 1" 100
    rfl rfl (by decide) rfl
    (Or.inr ⟨(3, { engine := some 3 }), rfl, rfl⟩)

/-- Claim C7: a warm-up failure at spawn time is swallowed: the spawn still
completes and stores the new handle (state Ready), no reset occurs, and
analysis succeeds on that same freshly spawned handle — both in the call that
triggered the spawn and in a subsequent call, which spawns nothing. -/
theorem c7_warmup_failure_swallowed (o : Oracle) (input_data : Input) (s : EngState)
    (f b : String) (t : Int) (h : Nat) (info : Info) (sc : Score)
    (habs : s.engine = none)
    (hspawn : o.spawn = SpawnOutcome.ok h true)
    (hf : input_data.fen.getD PyVal.vNone = PyVal.vStr f)
    (ht : pyIntVal (input_data.time_ms.getD (PyVal.vInt DEFAULT_TIME_MS)) = some t)
    (htpos : 0 < t)
    (hp : o.parse f = Except.ok b)
    (han : o.analyse h b t = AnalyseOutcome.ok info)
    (hsc : info.score = some sc) :
    _spawn_engine o = some h ∧
    (∃ r, (evaluate_position o input_data s).result = Except.ok r ∧ r.ok = true) ∧
    (evaluate_position o input_data s).state = { engine := some h } ∧
    (evaluate_position o input_data s).resets = 0 ∧
    (evaluate_position o input_data s).spawns = 1 ∧
    (evaluate_position o input_data { engine := some h }).spawns = 0 ∧
    (∃ r2, (evaluate_position o input_data { engine := some h }).result = Except.ok r2 ∧
      r2.ok = true) := by
  have hsp : _spawn_engine o = some h := by
    unfold _spawn_engine
    rw [hspawn]
  have hget : _get_engine o s = (some (h, { engine := some h }), 1) := by
    unfold _get_engine
    rw [habs, hsp]
  have hget2 : _get_engine o { engine := some h }
      = (some (h, { engine := some h }), 0) := rfl
  rw [eval_success o input_data s f t b h { engine := some h } 1 info sc
    hf ht htpos hp hget han hsc]
  rw [eval_success o input_data { engine := some h } f t b h { engine := some h } 0 info sc
    hf ht htpos hp hget2 han hsc]
  exact ⟨hsp, ⟨_, rfl, rfl⟩, rfl, rfl, rfl, rfl, ⟨_, rfl, rfl⟩⟩

/-- Witness for C7: with a warm-up that fails, the spawning call stores handle
5, performs no reset, and a repeat call on the stored handle spawns nothing. -/
theorem c7_warmup_failure_swallowed_witness :
    _spawn_engine oracleWarm = some 5 ∧
    (evaluate_position oracleWarm inputValid { engine := none }).state
        = { engine := some 5 } ∧
    (evaluate_position oracleWarm inputValid { engine := none }).resets = 0 ∧
    (evaluate_position oracleWarm inputValid { engine := none }).spawns = 1 ∧
    (evaluate_position oracleWarm inputValid { engine := some 5 }).spawns = 0 := by
  have hmain := c7_warmup_failure_swallowed oracleWarm inputValid { engine := none }
    "rnbqkbnr/pppppppp/8/8/4P3/8/PPPP1PPP/RNBQKBNR b KQkq - 0 1"
    "rnbqkbnr/pppppppp/8/8/4P3/8/PPPP1PPP/RNBQKBNR b KQkq - 0 1" 100 5
    { pv := some ["d8h4"], score := some (Score.mate 1) } (Score.mate 1)
    rfl rfl rfl rfl (by decide) rfl rfl rfl
  exact ⟨hmain.1, hmain.2.2.1, hmain.2.2.2.1, hmain.2.2.2.2.1, hmain.2.2.2.2.2.1⟩

/-- Claim C8: a successful analysis yields `ok = true`, the best move is the
first move of the principal variation (absent when none was found), and the
eval object is mate with the plies-to-mate for a mate score, centipawns
otherwise; the engine state is kept and no reset happens. -/
theorem c8_normalize (o : Oracle) (input_data : Input) (s : EngState)
    (f b : String) (t : Int) (h : Nat) (s2 : EngState) (ns : Nat) (info : Info) (sc : Score)
    (hf : input_data.fen.getD PyVal.vNone = PyVal.vStr f)
    (ht : pyIntVal (input_data.time_ms.getD (PyVal.vInt DEFAULT_TIME_MS)) = some t)
    (htpos : 0 < t)
    (hp : o.parse f = Except.ok b)
    (hget : _get_engine o s = (some (h, s2), ns))
    (han : o.analyse h b t = AnalyseOutcome.ok info)
    (hsc : info.score = some sc) :
    (evaluate_position o input_data s).result = Except.ok
      { eval := match sc with
          | Score.mate n => { type := "mate", value := some n }
          | Score.cp n => { type := "cp", value := some n },
        best_move_uci := bestMoveOfPv info.pv, ok := true } ∧
    (evaluate_position o input_data s).state = s2 ∧
    (evaluate_position o input_data s).resets = 0 := by
  rw [eval_success o input_data s f t b h s2 ns info sc hf ht htpos hp hget han hsc]
  rcases sc with n | n <;> exact ⟨rfl, rfl, rfl⟩

/-- Witness for C8: handle 2 held, analysis reports mate in 1 with principal
move d8h4 — the result is the mate-in-1 success result and the state keeps
handle 2. -/
theorem c8_normalize_witness :
    (evaluate_position oracleWarm inputValid { engine := some 2 }).result = Except.ok
      { eval := { type := "mate", value := some 1 },
        best_move_uci := some "d8h4", ok := true } ∧
    (evaluate_position oracleWarm inputValid { engine := some 2 }).state
        = { engine := some 2 } ∧
    (evaluate_position oracleWarm inputValid { engine := some 2 }).resets = 0 :=
  c8_normalize oracleWarm inputValid { engine := some 2 }
    "rnbqkbnr/pppppppp/8/8/4P3/8/PPPP1PPP/RNBQKBNR b KQkq - 0 1"
    "rnbqkbnr/pppppppp/8/8/4P3/8/PPPP1PPP/RNBQKBNR b KQkq - 0 1" 100 2
    { engine := some 2 } 0
    { pv := some ["d8h4"], score := some (Score.mate 1) } (Score.mate 1)
    rfl rfl (by decide) rfl rfl rfl rfl

/-- Claim C10: every result returned with `ok = true` carries a present eval
value, in the mate branch as well as in the centipawn branch; an absent eval
value can only occur together with `ok = false`. -/
theorem c10_ok_value_present (o : Oracle) (input_data : Input) (s : EngState)
    (r : EvalResult)
    (hr : (evaluate_position o input_data s).result = Except.ok r)
    (hok : r.ok = true) :
    r.eval.value.isSome = true := by
  simp only [evaluate_position] at hr
  repeat' split at hr
  all_goals dsimp only at hr
  all_goals
    first
      | exact Except.noConfusion hr
      | (injection hr with h; subst h; rfl)
      | (injection hr with h; subst h; simp [failureResult] at hok)

/-- Witness for C10: a healthy centipawn evaluation returns eval value 35,
which is present. -/
theorem c10_ok_value_present_witness :
    ({ eval := { type := "cp", value := some 35 },
        best_move_uci := some "e7e5", ok := true } : EvalResult).eval.value.isSome = true :=
  c10_ok_value_present oracleOk inputValid { engine := none }
    { eval := { type := "cp", value := some 35 },
      best_move_uci := some "e7e5", ok := true }
    rfl rfl

end Engine
